import Mathlib

/-!
Verification of the delinquency analytics engine of `src/b.py`.

The per-account analysis is the function `analyze_loan(row, months)`
(lines 485-514).  A raw account row is embedded as the list of its monthly
DPD cells in chronological order, `none` standing for a missing cell and
`ℚ` idealising the Python floats the source produces with `astype(float)`.
The two returned `pandas.DataFrame`s are embedded as a `LoanDf` (the
per-month table) and a `Metrics` record (the metrics table); the early
return of two empty frames on a fully-absent row is embedded as `none`.
Numeric conversions of the source (`int(...)`) are modelled exactly;
string rendering (`f"...%"`, `"... Days"`) is presentation and the
underlying numeric value is kept.
-/

set_option maxHeartbeats 1000000

/-- `Series.first_valid_index` of the row, as a position: index of the first
cell holding a present value (line 487). -/
def firstValidIndex : List (Option ℚ) → Option ℕ
  | [] => none
  | some _ :: _ => some 0
  | none :: t => (firstValidIndex t).map (· + 1)

/-- `Series.last_valid_index` of the row, as a position: index of the last
cell holding a present value (line 491). -/
def lastValidIndex : List (Option ℚ) → Option ℕ
  | [] => none
  | x :: t =>
    match lastValidIndex t with
    | some e => some (e + 1)
    | none => if x.isSome then some 0 else none

/-- Python `int(...)` on a rational: truncation toward zero. -/
def pyInt (q : ℚ) : ℤ := if 0 ≤ q then ⌊q⌋ else ⌈q⌉

/-- `Series.max` of a nonempty series (the empty branch never feeds it in
the source, since `analyze_loan` returns early on an all-absent row). -/
def listMax : List ℚ → ℚ
  | [] => 0
  | x :: t => t.foldl max x

/-- `dpd.iloc[start_pos:end_pos+1].fillna(0)` — the active window with
absent cells replaced by 0 (line 495). -/
def activeDpd (row : List (Option ℚ)) (s e : ℕ) : List ℚ :=
  ((row.drop s).take (e - s + 1)).map (fun o => o.getD 0)

/-- The per-month lifecycle labels
`["Not Disbursed"]*start_pos + ["Active"]*(end_pos-start_pos+1) +
["Settled"]*(len(months)-1-end_pos)` (line 496). -/
def statusList (n s e : ℕ) : List String :=
  List.replicate s "Not Disbursed" ++ List.replicate (e - s + 1) "Active" ++
    List.replicate (n - 1 - e) "Settled"

/-- The full zero-filled DPD column `dpd.fillna(0)` of the per-month table
(line 500): the whole series, not just the active window. -/
def dpdFilled (row : List (Option ℚ)) : List ℚ := row.map (fun o => o.getD 0)

/-- `rolling(3).mean().fillna(0)` (line 503): the 3-month trailing mean,
0 at the first two positions where pandas yields NaN before `fillna`. -/
def rolling3 (xs : List ℚ) : List ℚ :=
  (List.range xs.length).map fun i =>
    if i < 2 then 0 else (xs.getD (i - 2) 0 + xs.getD (i - 1) 0 + xs.getD i 0) / 3

/-- The per-month output table (lines 498-503). -/
structure LoanDf where
  dpd : List ℚ
  status : List String
  rolling3M : List ℚ
deriving DecidableEq

/-- The metrics table (lines 505-513), one field per row, holding the
numeric value the source computes before string formatting. -/
structure Metrics where
  loanStatus : String
  activeTenure : ℕ
  delinquencyDensity : ℚ
  maximumDPD : ℤ
  stickyBucket : String
  cumulativeDPD : ℤ
deriving DecidableEq

/-- The per-month table built at lines 498-503. -/
def mkDf (row : List (Option ℚ)) (s e : ℕ) : LoanDf :=
  { dpd := dpdFilled row
    status := statusList row.length s e
    rolling3M := rolling3 (dpdFilled row) }

/-- The metrics rows built at lines 505-513. -/
def mkMetrics (row : List (Option ℚ)) (s e : ℕ) : Metrics :=
  let active := activeDpd row s e
  let maxd := listMax active
  { loanStatus := if e < row.length - 1 then "Settled" else "Active"
    activeTenure := active.length
    delinquencyDensity :=
      (active.countP (fun x => decide (0 < x)) : ℚ) / (active.length : ℚ)
    maximumDPD := pyInt maxd
    stickyBucket := if 90 ≤ maxd then "90+" else if 30 ≤ maxd then "30-89" else "0-29"
    cumulativeDPD := pyInt active.sum }

/-- `analyze_loan` (lines 485-514): locate the first and last present
cells; on an all-absent row return the empty-frames sentinel (`none`,
embedding `return pd.DataFrame(), pd.DataFrame()`), otherwise build the
per-month table and the metrics table. -/
def analyze_loan (row : List (Option ℚ)) : Option (LoanDf × Metrics) :=
  match firstValidIndex row, lastValidIndex row with
  | some s, some e => some (mkDf row s e, mkMetrics row s e)
  | _, _ => none

/-- Cure/recurrence counters of spec §4.4. -/
structure CureSummary where
  episodes : ℕ
  hardCures : ℕ
  sustainedCures : ℕ
  recurrences : ℕ
  timeToCure : List ℕ
deriving DecidableEq

/-- Modelled from the spec: the cure/recurrence state machine of §4.4 is
not present in `src/b.py` (the repository's only source file holds no
episode/cure logic), so it is modelled from the spec's words.  The scan
walks the ActiveSeries keeping the length of the current delinquent run:
a month with DPD > 0 after a current run increments Episodes; a month
with DPD = 0 after a delinquent run increments Hard Cures, records the
run length as Time-to-Cure, and inspects the following 3-month lookahead
window clipped to the series bounds — all months 0 increments Sustained
Cures, any month with DPD > 0 increments Recurrences. -/
def cureGo : List ℚ → ℕ → CureSummary → CureSummary
  | [], _, acc => acc
  | x :: t, run, acc =>
    if 0 < x then
      cureGo t (run + 1)
        (if run = 0 then { acc with episodes := acc.episodes + 1 } else acc)
    else
      if 0 < run then
        cureGo t 0
          { acc with
            hardCures := acc.hardCures + 1
            timeToCure := acc.timeToCure ++ [run]
            sustainedCures := acc.sustainedCures +
              (if (t.take 3).all (fun y => decide (y = 0)) then 1 else 0)
            recurrences := acc.recurrences +
              (if (t.take 3).any (fun y => decide (0 < y)) then 1 else 0) }
      else cureGo t 0 acc

/-- Modelled from the spec: run the §4.4 state machine over a whole
ActiveSeries starting in the state the first value implies, with all
counters at zero. -/
def cureScan (xs : List ℚ) : CureSummary :=
  cureGo xs 0 ⟨0, 0, 0, 0, []⟩

/-- Modelled from the spec: Cure Rate = Hard Cures / Episodes, 0 when
there is no episode (§4.4). -/
def cureRate (c : CureSummary) : ℚ :=
  if c.episodes = 0 then 0 else (c.hardCures : ℚ) / (c.episodes : ℚ)

/-- Modelled from the spec: Average Time-to-Cure = mean of the recorded
Time-to-Cure samples, 0 when there is none (§4.4). -/
def avgTimeToCure (c : CureSummary) : ℚ :=
  if c.timeToCure.length = 0 then 0
  else (c.timeToCure.sum : ℚ) / (c.timeToCure.length : ℚ)

/-! ### Facts about the first/last valid index search -/

lemma firstValidIndex_lt_length {l : List (Option ℚ)} {s : ℕ}
    (h : firstValidIndex l = some s) : s < l.length := by
  induction l generalizing s with
  | nil => simp [firstValidIndex] at h
  | cons x t ih =>
    cases x with
    | some v =>
      simp [firstValidIndex] at h
      simp [← h]
    | none =>
      simp [firstValidIndex, Option.map_eq_some'] at h
      obtain ⟨a, ha, rfl⟩ := h
      have := ih ha
      simp
      omega

lemma firstValidIndex_isSome_getD {l : List (Option ℚ)} {s : ℕ}
    (h : firstValidIndex l = some s) : (l.getD s none).isSome := by
  induction l generalizing s with
  | nil => simp [firstValidIndex] at h
  | cons x t ih =>
    cases x with
    | some v =>
      simp [firstValidIndex] at h
      simp [← h]
    | none =>
      simp [firstValidIndex, Option.map_eq_some'] at h
      obtain ⟨a, ha, rfl⟩ := h
      simpa using ih ha

lemma firstValidIndex_min {l : List (Option ℚ)} {s : ℕ}
    (h : firstValidIndex l = some s) : ∀ j, j < s → l.getD j none = none := by
  induction l generalizing s with
  | nil => simp [firstValidIndex] at h
  | cons x t ih =>
    cases x with
    | some v =>
      simp [firstValidIndex] at h
      omega
    | none =>
      simp [firstValidIndex, Option.map_eq_some'] at h
      obtain ⟨a, ha, rfl⟩ := h
      intro j hj
      cases j with
      | zero => rfl
      | succ j' => simpa using ih ha j' (by omega)

lemma lastValidIndex_eq_none {l : List (Option ℚ)}
    (h : lastValidIndex l = none) : ∀ j, l.getD j none = none := by
  induction l with
  | nil => intro j; rfl
  | cons x t ih =>
    intro j
    unfold lastValidIndex at h
    cases hlt : lastValidIndex t with
    | some e => rw [hlt] at h; simp at h
    | none =>
      rw [hlt] at h
      by_cases hx : x.isSome
      · simp [hx] at h
      · cases j with
        | zero => simpa using Option.not_isSome_iff_eq_none.mp hx
        | succ j' => simpa using ih hlt j'

lemma lastValidIndex_lt_length {l : List (Option ℚ)} {e : ℕ}
    (h : lastValidIndex l = some e) : e < l.length := by
  induction l generalizing e with
  | nil => simp [lastValidIndex] at h
  | cons x t ih =>
    unfold lastValidIndex at h
    cases hlt : lastValidIndex t with
    | some e' =>
      rw [hlt] at h
      simp at h
      have := ih hlt
      simp [← h]
      omega
    | none =>
      rw [hlt] at h
      by_cases hx : x.isSome
      · simp [hx] at h
        simp [← h]
      · simp [hx] at h

lemma lastValidIndex_isSome_getD {l : List (Option ℚ)} {e : ℕ}
    (h : lastValidIndex l = some e) : (l.getD e none).isSome := by
  induction l generalizing e with
  | nil => simp [lastValidIndex] at h
  | cons x t ih =>
    unfold lastValidIndex at h
    cases hlt : lastValidIndex t with
    | some e' =>
      rw [hlt] at h
      simp at h
      rw [← h]
      simpa using ih hlt
    | none =>
      rw [hlt] at h
      by_cases hx : x.isSome
      · simp [hx] at h
        rw [← h]
        simpa using hx
      · simp [hx] at h

lemma lastValidIndex_max {l : List (Option ℚ)} {e : ℕ}
    (h : lastValidIndex l = some e) : ∀ j, e < j → l.getD j none = none := by
  induction l generalizing e with
  | nil => simp [lastValidIndex] at h
  | cons x t ih =>
    unfold lastValidIndex at h
    cases hlt : lastValidIndex t with
    | some e' =>
      rw [hlt] at h
      simp at h
      intro j hj
      rw [← h] at hj
      cases j with
      | zero => omega
      | succ j' => simpa using ih hlt j' (by omega)
    | none =>
      rw [hlt] at h
      by_cases hx : x.isSome
      · simp [hx] at h
        intro j hj
        rw [← h] at hj
        cases j with
        | zero => omega
        | succ j' => simpa using lastValidIndex_eq_none hlt j'
      · simp [hx] at h

lemma firstValidIndex_le_lastValidIndex {l : List (Option ℚ)} {s e : ℕ}
    (h1 : firstValidIndex l = some s) (h2 : lastValidIndex l = some e) :
    s ≤ e := by
  by_contra hlt
  push_neg at hlt
  have h3 := firstValidIndex_min h1 e hlt
  have h4 := lastValidIndex_isSome_getD h2
  rw [h3] at h4
  simp at h4

lemma firstValidIndex_eq_none_of_all_none {l : List (Option ℚ)}
    (h : ∀ x ∈ l, x = none) : firstValidIndex l = none := by
  induction l with
  | nil => rfl
  | cons x t ih =>
    have hx : x = none := h x (by simp)
    subst hx
    simp [firstValidIndex]
    exact ih fun y hy => h y (by simp [hy])

lemma lastValidIndex_eq_none_of_all_none {l : List (Option ℚ)}
    (h : ∀ x ∈ l, x = none) : lastValidIndex l = none := by
  induction l with
  | nil => rfl
  | cons x t ih =>
    have hx : x = none := h x (by simp)
    subst hx
    unfold lastValidIndex
    rw [ih fun y hy => h y (by simp [hy])]
    rfl

/-- On present first and last positions, `analyze_loan` takes the main
branch. -/
lemma analyze_loan_eq {row : List (Option ℚ)} {s e : ℕ}
    (h1 : firstValidIndex row = some s) (h2 : lastValidIndex row = some e) :
    analyze_loan row = some (mkDf row s e, mkMetrics row s e) := by
  unfold analyze_loan
  rw [h1, h2]

/-! ### List-access facts for the assembled columns -/

lemma getD_append_left_of_lt {α : Type} (l l' : List α) (d : α) (i : ℕ)
    (h : i < l.length) : (l ++ l').getD i d = l.getD i d := by
  simp [List.getD_eq_getElem?_getD, List.getElem?_append_left h]

lemma getD_append_right_of_ge {α : Type} (l l' : List α) (d : α) (i : ℕ)
    (h : l.length ≤ i) : (l ++ l').getD i d = l'.getD (i - l.length) d := by
  simp [List.getD_eq_getElem?_getD, List.getElem?_append_right h]

lemma getD_replicate_of_lt {α : Type} (a d : α) (n i : ℕ) (h : i < n) :
    (List.replicate n a).getD i d = a := by
  simp [List.getD_eq_getElem?_getD, List.getElem?_replicate, h]

lemma statusList_length (n s e : ℕ) (hse : s ≤ e) (hen : e < n) :
    (statusList n s e).length = n := by
  simp [statusList]
  omega

lemma statusList_getD (n s e i : ℕ) (hse : s ≤ e) (hen : e < n) (hin : i < n) :
    (statusList n s e).getD i "" =
      if i < s then "Not Disbursed" else if i ≤ e then "Active" else "Settled" := by
  unfold statusList
  rcases Nat.lt_or_ge i s with h | h
  · rw [getD_append_left_of_lt _ _ _ _ (by simp; omega)]
    rw [getD_append_left_of_lt _ _ _ _ (by simpa using h)]
    rw [getD_replicate_of_lt _ _ _ _ h, if_pos h]
  · rcases le_or_lt i e with h2 | h2
    · rw [getD_append_left_of_lt _ _ _ _ (by simp; omega)]
      rw [getD_append_right_of_ge _ _ _ _ (by simpa using h)]
      simp only [List.length_replicate]
      rw [getD_replicate_of_lt _ _ _ _ (by omega)]
      rw [if_neg (by omega), if_pos h2]
    · rw [getD_append_right_of_ge _ _ _ _ (by simp; omega)]
      simp only [List.length_append, List.length_replicate]
      rw [getD_replicate_of_lt _ _ _ _ (by omega)]
      rw [if_neg (by omega), if_neg (by omega)]

lemma activeDpd_length (row : List (Option ℚ)) (s e : ℕ)
    (hse : s ≤ e) (hen : e < row.length) :
    (activeDpd row s e).length = e - s + 1 := by
  simp [activeDpd]
  omega

lemma dpdFilled_length (row : List (Option ℚ)) :
    (dpdFilled row).length = row.length := by
  simp [dpdFilled]

lemma dpdFilled_getD (row : List (Option ℚ)) (i : ℕ) (h : i < row.length) :
    (dpdFilled row).getD i 0 = (row.getD i none).getD 0 := by
  simp only [dpdFilled, List.getD_eq_getElem?_getD, List.getElem?_map]
  rw [List.getElem?_eq_getElem h]
  simp

lemma rolling3_length (xs : List ℚ) : (rolling3 xs).length = xs.length := by
  simp [rolling3]

lemma rolling3_getD (xs : List ℚ) (i : ℕ) (h : i < xs.length) :
    (rolling3 xs).getD i 0 =
      if i < 2 then 0
      else (xs.getD (i - 2) 0 + xs.getD (i - 1) 0 + xs.getD i 0) / 3 := by
  simp only [rolling3, List.getD_eq_getElem?_getD, List.getElem?_map,
    List.getElem?_range h]
  rfl

/-! ### Claim theorems -/

/-- C1: for every input row with at least one present DPD value — `s` being
the position of the first present value and `e` of the last, as the
conjuncts about the row's cells state — every month before `s` is labelled
"Not Disbursed", every month in `[s, e]` "Active", and every month after
`e` "Settled"; the three contiguous runs partition the full series with no
gaps or overlaps (the label list has exactly the series' length and every
position carries exactly one of the three labels by position), and the
ActiveSeries has length `e - s + 1`. -/
theorem C1_lifecycle_partition (row : List (Option ℚ)) (s e : ℕ)
    (h1 : firstValidIndex row = some s) (h2 : lastValidIndex row = some e) :
    ((row.getD s none).isSome ∧ ∀ j, j < s → row.getD j none = none) ∧
    ((row.getD e none).isSome ∧ ∀ j, e < j → row.getD j none = none) ∧
    (statusList row.length s e).length = row.length ∧
    (∀ i, i < row.length →
      (statusList row.length s e).getD i "" =
        if i < s then "Not Disbursed"
        else if i ≤ e then "Active" else "Settled") ∧
    (activeDpd row s e).length = e - s + 1 := by
  have hse := firstValidIndex_le_lastValidIndex h1 h2
  have hen := lastValidIndex_lt_length h2
  exact ⟨⟨firstValidIndex_isSome_getD h1, firstValidIndex_min h1⟩,
    ⟨lastValidIndex_isSome_getD h2, lastValidIndex_max h2⟩,
    statusList_length _ _ _ hse hen,
    fun i hi => statusList_getD _ _ _ _ hse hen hi,
    activeDpd_length _ _ _ hse hen⟩

theorem C1_lifecycle_partition_witness :
    firstValidIndex [none, some 5, none] = some 1 ∧
    lastValidIndex [none, some 5, none] = some 1 ∧
    (statusList 3 1 1).length = 3 ∧
    (activeDpd [none, some 5, none] 1 1).length = 1 :=
  ⟨rfl, rfl,
    (C1_lifecycle_partition [none, some 5, none] 1 1 rfl rfl).2.2.1,
    (C1_lifecycle_partition [none, some 5, none] 1 1 rfl rfl).2.2.2.2⟩

/-- C3 (counterexample): on the all-absent two-month row the engine does
NOT return a profile whose Loan Status is "NotDisbursed" with neutral
statistics: line 489 returns two empty DataFrames (the `none` sentinel
here), an empty and statistic-free result, so the claim as stated fails. -/
theorem C3_counterexample :
    analyze_loan [none, none] = none ∧
    ((analyze_loan [none, none]).map fun p => p.2.loanStatus) ≠
      some "NotDisbursed" ∧
    ((analyze_loan [none, none]).map fun p => p.2.loanStatus) ≠
      some "Not Disbursed" := by
  decide

/-- C3 (amended): for every row in which no observation is ever present
the analysis does not fail: it returns the empty-frames sentinel — two
empty DataFrames, embedded as `none` — rather than a populated profile
with a "NotDisbursed" status and neutral statistics. -/
theorem C3_empty_series (row : List (Option ℚ)) (h : ∀ x ∈ row, x = none) :
    analyze_loan row = none := by
  unfold analyze_loan
  rw [firstValidIndex_eq_none_of_all_none h,
    lastValidIndex_eq_none_of_all_none h]

theorem C3_empty_series_witness :
    (∀ x ∈ ([none, none, none] : List (Option ℚ)), x = none) ∧
    analyze_loan [none, none, none] = none :=
  ⟨by decide, C3_empty_series [none, none, none] (by decide)⟩

/-- C4: for every series with at least one present value the assembled
Loan Status is "Active" exactly when the last Active month `e` is the last
month of the series, and "Settled" otherwise (line 507). -/
theorem C4_loan_status (row : List (Option ℚ)) (s e : ℕ)
    (df : LoanDf) (m : Metrics)
    (h1 : firstValidIndex row = some s) (h2 : lastValidIndex row = some e)
    (h3 : analyze_loan row = some (df, m)) :
    (m.loanStatus = "Active" ↔ e = row.length - 1) ∧
    (m.loanStatus = "Settled" ↔ e ≠ row.length - 1) := by
  have hen := lastValidIndex_lt_length h2
  have h4 := (analyze_loan_eq h1 h2).symm.trans h3
  simp only [Option.some.injEq, Prod.mk.injEq] at h4
  obtain ⟨-, hm⟩ := h4
  subst hm
  simp only [mkMetrics]
  by_cases hcase : e < row.length - 1
  · rw [if_pos hcase]
    refine ⟨⟨fun hstr => absurd hstr (by decide), fun he => absurd he (by omega)⟩,
      ⟨fun _ => by omega, fun _ => rfl⟩⟩
  · rw [if_neg hcase]
    refine ⟨⟨fun _ => by omega, fun _ => rfl⟩,
      ⟨fun hstr => absurd hstr (by decide), fun hne => absurd (by omega) hne⟩⟩

theorem C4_loan_status_witness :
    firstValidIndex [some 1, none] = some 0 ∧
    lastValidIndex [some 1, none] = some 0 ∧
    analyze_loan [some 1, none] =
      some (mkDf [some 1, none] 0 0, mkMetrics [some 1, none] 0 0) ∧
    (mkMetrics [some 1, none] 0 0).loanStatus = "Settled" :=
  ⟨rfl, rfl, rfl,
    (C4_loan_status [some 1, none] 0 0 (mkDf [some 1, none] 0 0)
      (mkMetrics [some 1, none] 0 0) rfl rfl rfl).2.mpr (by decide)⟩

/-- C9: whenever at least one observation is present the active window is
non-empty, so the Delinquency Density denominator `len(active_dpd)` is a
nonzero count and the division at line 509 never divides by zero; the
only-empty case is screened out by the early return on a missing first
valid index. -/
theorem C9_active_window_nonempty (row : List (Option ℚ)) (s e : ℕ)
    (h1 : firstValidIndex row = some s) (h2 : lastValidIndex row = some e) :
    0 < (activeDpd row s e).length ∧
    ((activeDpd row s e).length : ℚ) ≠ 0 := by
  have hse := firstValidIndex_le_lastValidIndex h1 h2
  have hen := lastValidIndex_lt_length h2
  have hlen := activeDpd_length row s e hse hen
  refine ⟨by omega, ?_⟩
  rw [hlen]
  exact_mod_cast Nat.succ_ne_zero (e - s)

theorem C9_active_window_nonempty_witness :
    firstValidIndex [some 0] = some 0 ∧
    lastValidIndex [some 0] = some 0 ∧
    0 < (activeDpd [some 0] 0 0).length :=
  ⟨rfl, rfl, (C9_active_window_nonempty [some 0] 0 0 rfl rfl).1⟩

/-- C2 (counterexample): the code does not follow the canonical four-tier
table: a series whose maximum DPD is 45 is classified "30-89", not "30+",
and one with maximum 10 is classified "0-29", not "Current" (line 511). -/
theorem C2_counterexample :
    ((analyze_loan [some 45]).map fun p => p.2.stickyBucket) = some "30-89" ∧
    ((analyze_loan [some 45]).map fun p => p.2.stickyBucket) ≠ some "30+" ∧
    ((analyze_loan [some 10]).map fun p => p.2.stickyBucket) = some "0-29" ∧
    ((analyze_loan [some 10]).map fun p => p.2.stickyBucket) ≠ some "Current" := by
  decide

/-- C2 (amended): the risk tier is a function of the maximum DPD of the
ActiveSeries per the THREE-tier table the source implements (highest
threshold wins): max ≥ 90 yields "90+", 30 ≤ max < 90 yields "30-89" and
max < 30 yields "0-29"; in particular max 95 classifies as "90+", 45 as
"30-89" and 10 as "0-29". -/
theorem C2_risk_tier (row : List (Option ℚ)) (s e : ℕ)
    (df : LoanDf) (m : Metrics)
    (h1 : firstValidIndex row = some s) (h2 : lastValidIndex row = some e)
    (h3 : analyze_loan row = some (df, m)) :
    (90 ≤ listMax (activeDpd row s e) → m.stickyBucket = "90+") ∧
    (30 ≤ listMax (activeDpd row s e) → listMax (activeDpd row s e) < 90 →
      m.stickyBucket = "30-89") ∧
    (listMax (activeDpd row s e) < 30 → m.stickyBucket = "0-29") := by
  have h4 := (analyze_loan_eq h1 h2).symm.trans h3
  simp only [Option.some.injEq, Prod.mk.injEq] at h4
  obtain ⟨-, hm⟩ := h4
  subst hm
  simp only [mkMetrics]
  refine ⟨fun h90 => ?_, fun h30 h90 => ?_, fun h30 => ?_⟩
  · rw [if_pos h90]
  · rw [if_neg (by linarith), if_pos h30]
  · rw [if_neg (by linarith), if_neg (by linarith)]

theorem C2_risk_tier_witness :
    firstValidIndex [some 95] = some 0 ∧
    lastValidIndex [some 95] = some 0 ∧
    analyze_loan [some 95] =
      some (mkDf [some 95] 0 0, mkMetrics [some 95] 0 0) ∧
    (90 : ℚ) ≤ listMax (activeDpd [some 95] 0 0) ∧
    (mkMetrics [some 95] 0 0).stickyBucket = "90+" :=
  ⟨rfl, rfl, rfl, by decide,
    (C2_risk_tier [some 95] 0 0 (mkDf [some 95] 0 0)
      (mkMetrics [some 95] 0 0) rfl rfl rfl).1 (by decide)⟩

/-- C5 (counterexample): the Total Cumulative DPD is reported through
Python's `int(...)` (line 512), which truncates: on the one-month series
holding DPD 1/2 the reported cumulative DPD is 0 while the sum of the
ActiveSeries is 1/2, so the claimed exact equality fails. -/
theorem C5_counterexample :
    ((analyze_loan [some (1/2)]).map fun p => p.2.cumulativeDPD) = some 0 ∧
    (activeDpd [some (1/2)] 0 0).sum = 1/2 ∧
    ((0 : ℤ) : ℚ) ≠ 1/2 := by
  have hsum : (activeDpd [some (1/2)] 0 0).sum = 1/2 := by
    simp [activeDpd]
  have hfloor : pyInt (1/2 : ℚ) = 0 := by
    rw [pyInt, if_pos (by norm_num)]
    rw [Int.floor_eq_iff]
    norm_num
  refine ⟨?_, hsum, by norm_num⟩
  rw [analyze_loan_eq (rfl : firstValidIndex [some (1/2)] = some 0)
    (rfl : lastValidIndex [some (1/2)] = some 0)]
  simp only [Option.map_some', Option.some.injEq, mkMetrics]
  rw [hsum, hfloor]

/-- C5 (amended): the reported Cumulative DPD equals the integer
truncation of the sum of the ActiveSeries — the active-window
sub-sequence with every absent value substituted by 0 — and therefore
equals that sum exactly whenever the sum is a whole number. -/
theorem C5_cumulative_dpd (row : List (Option ℚ)) (s e : ℕ)
    (df : LoanDf) (m : Metrics)
    (h1 : firstValidIndex row = some s) (h2 : lastValidIndex row = some e)
    (h3 : analyze_loan row = some (df, m)) :
    m.cumulativeDPD = pyInt (activeDpd row s e).sum ∧
    (∀ z : ℤ, (activeDpd row s e).sum = (z : ℚ) →
      (m.cumulativeDPD : ℚ) = (activeDpd row s e).sum) := by
  have h4 := (analyze_loan_eq h1 h2).symm.trans h3
  simp only [Option.some.injEq, Prod.mk.injEq] at h4
  obtain ⟨-, hm⟩ := h4
  subst hm
  refine ⟨by simp [mkMetrics], fun z hz => ?_⟩
  simp only [mkMetrics, hz, pyInt]
  split
  · simp
  · simp

theorem C5_cumulative_dpd_witness :
    firstValidIndex [some 3] = some 0 ∧
    lastValidIndex [some 3] = some 0 ∧
    analyze_loan [some 3] =
      some (mkDf [some 3] 0 0, mkMetrics [some 3] 0 0) ∧
    (activeDpd [some 3] 0 0).sum = ((3 : ℤ) : ℚ) ∧
    ((mkMetrics [some 3] 0 0).cumulativeDPD : ℚ) =
      (activeDpd [some 3] 0 0).sum :=
  ⟨rfl, rfl, rfl, by norm_num [activeDpd],
    (C5_cumulative_dpd [some 3] 0 0 (mkDf [some 3] 0 0)
      (mkMetrics [some 3] 0 0) rfl rfl rfl).2 3 (by norm_num [activeDpd])⟩

/-- C6: the reported Delinquency Density — the proportion of delinquent
months computed at line 509 — times the length of the ActiveSeries,
rounded, equals the count of active-window months with DPD > 0. -/
theorem C6_density (row : List (Option ℚ)) (s e : ℕ)
    (df : LoanDf) (m : Metrics)
    (h1 : firstValidIndex row = some s) (h2 : lastValidIndex row = some e)
    (h3 : analyze_loan row = some (df, m)) :
    round (m.delinquencyDensity * ((activeDpd row s e).length : ℚ)) =
      ((activeDpd row s e).countP (fun x => decide (0 < x)) : ℤ) := by
  have h4 := (analyze_loan_eq h1 h2).symm.trans h3
  simp only [Option.some.injEq, Prod.mk.injEq] at h4
  obtain ⟨-, hm⟩ := h4
  subst hm
  have hse := firstValidIndex_le_lastValidIndex h1 h2
  have hen := lastValidIndex_lt_length h2
  have hne : ((activeDpd row s e).length : ℚ) ≠ 0 := by
    rw [activeDpd_length row s e hse hen]
    exact_mod_cast Nat.succ_ne_zero (e - s)
  simp only [mkMetrics]
  rw [div_mul_cancel₀ _ hne]
  exact round_natCast _

theorem C6_density_witness :
    firstValidIndex [some 5, some 0] = some 0 ∧
    lastValidIndex [some 5, some 0] = some 1 ∧
    analyze_loan [some 5, some 0] =
      some (mkDf [some 5, some 0] 0 1, mkMetrics [some 5, some 0] 0 1) ∧
    round ((mkMetrics [some 5, some 0] 0 1).delinquencyDensity *
        ((activeDpd [some 5, some 0] 0 1).length : ℚ)) =
      ((activeDpd [some 5, some 0] 0 1).countP (fun x => decide (0 < x)) : ℤ) :=
  ⟨rfl, rfl, rfl,
    C6_density [some 5, some 0] 0 1 (mkDf [some 5, some 0] 0 1)
      (mkMetrics [some 5, some 0] 0 1) rfl rfl rfl⟩

/-- C7: the cure/recurrence state machine of §4.4, scanning the
ActiveSeries, yields on [0,30,60,0,0,0] Episodes 1, Hard Cures 1,
Time-to-Cure 2 (the single recorded sample), Cure Rate 1, Sustained
Cures 1 and Recurrences 0; and on [0,30,0,45,0] Episodes 2, Hard Cures 2,
Cure Rate 1 and average Time-to-Cure 1. -/
theorem C7_cure_state_machine :
    (cureScan [0, 30, 60, 0, 0, 0]).episodes = 1 ∧
    (cureScan [0, 30, 60, 0, 0, 0]).hardCures = 1 ∧
    (cureScan [0, 30, 60, 0, 0, 0]).timeToCure = [2] ∧
    cureRate (cureScan [0, 30, 60, 0, 0, 0]) = 1 ∧
    (cureScan [0, 30, 60, 0, 0, 0]).sustainedCures = 1 ∧
    (cureScan [0, 30, 60, 0, 0, 0]).recurrences = 0 ∧
    (cureScan [0, 30, 0, 45, 0]).episodes = 2 ∧
    (cureScan [0, 30, 0, 45, 0]).hardCures = 2 ∧
    cureRate (cureScan [0, 30, 0, 45, 0]) = 1 ∧
    avgTimeToCure (cureScan [0, 30, 0, 45, 0]) = 1 := by
  have e1 : cureScan [0, 30, 60, 0, 0, 0] = ⟨1, 1, 1, 0, [2]⟩ := by decide
  have e2 : cureScan [0, 30, 0, 45, 0] = ⟨2, 2, 1, 1, [1, 1]⟩ := by decide
  rw [e1, e2]
  norm_num [cureRate, avgTimeToCure]

/-- C8: the analysis is deterministic — the embedding is a pure function
of the account row alone, with no ambient or mutable state, so two calls
on the same immutable input yield identical outputs. -/
theorem C8_deterministic (row1 row2 : List (Option ℚ)) (h : row1 = row2) :
    analyze_loan row1 = analyze_loan row2 := by rw [h]

theorem C8_deterministic_witness :
    ([some 7, none] : List (Option ℚ)) = [some 7, none] ∧
    analyze_loan [some 7, none] = analyze_loan [some 7, none] :=
  ⟨rfl, C8_deterministic [some 7, none] [some 7, none] rfl⟩

/-- C10: in the per-month output table the DPD column zero-fills absent
values over the entire series — including the Not Disbursed and Settled
months, not just the active window (line 500) — and the Rolling_3M column
is the 3-month rolling mean of that full zero-filled column, reported as 0
at the first two positions where the window is incomplete (line 503). -/
theorem C10_table_columns (row : List (Option ℚ)) (s e : ℕ)
    (df : LoanDf) (m : Metrics)
    (h1 : firstValidIndex row = some s) (h2 : lastValidIndex row = some e)
    (h3 : analyze_loan row = some (df, m)) :
    df.dpd.length = row.length ∧
    (∀ i, i < row.length → df.dpd.getD i 0 = (row.getD i none).getD 0) ∧
    df.rolling3M.length = row.length ∧
    (∀ i, i < row.length → df.rolling3M.getD i 0 =
      if i < 2 then 0
      else (df.dpd.getD (i - 2) 0 + df.dpd.getD (i - 1) 0 + df.dpd.getD i 0) / 3) := by
  have h4 := (analyze_loan_eq h1 h2).symm.trans h3
  simp only [Option.some.injEq, Prod.mk.injEq] at h4
  obtain ⟨hdf, -⟩ := h4
  subst hdf
  refine ⟨by simp [mkDf, dpdFilled_length], fun i hi => ?_, by
    simp [mkDf, rolling3_length, dpdFilled_length], fun i hi => ?_⟩
  · simpa [mkDf] using dpdFilled_getD row i hi
  · have hx : i < (dpdFilled row).length := by rw [dpdFilled_length]; exact hi
    simpa [mkDf] using rolling3_getD (dpdFilled row) i hx

theorem C10_table_columns_witness :
    firstValidIndex [some 1, none, some 4] = some 0 ∧
    lastValidIndex [some 1, none, some 4] = some 2 ∧
    analyze_loan [some 1, none, some 4] =
      some (mkDf [some 1, none, some 4] 0 2, mkMetrics [some 1, none, some 4] 0 2) ∧
    (mkDf [some 1, none, some 4] 0 2).dpd.length = 3 :=
  ⟨rfl, rfl, rfl,
    (C10_table_columns [some 1, none, some 4] 0 2
      (mkDf [some 1, none, some 4] 0 2)
      (mkMetrics [some 1, none, some 4] 0 2) rfl rfl rfl).1⟩
